import Mathlib

/-!
Verification of the psa-bypass bot (`bot.py`).

The bot's code is shallowly embedded here.  Python strings are modelled as
`List Char` (`PyStr`), Python exceptions as the inductive `PyErr`, and every
fallible Python operation returns an `Option` or `Except`.  Network and
framework calls (HTTP requests, Telegram replies, HTML parsing) are stubbed by
explicit parameters: an `HttpStub` for the try2link resolver, a per-item
resolution-outcome list for `psa_bypasser`, a membership oracle for
`autorization`, and an effect oracle for the Telegram handlers.  All other
logic — string manipulation, list filtering, control flow, exception routing —
is translated line by line from `bot.py`.
-/

/-- Python `str` modelled as a list of characters. -/
abbrev PyStr := List Char

/-- Convert a Lean string literal to a `PyStr`. -/
def pstr (s : String) : PyStr := s.toList

/-- Python exceptions that can arise in the translated code. -/
inductive PyErr where
  /-- pyrogram `FloodWait`, carrying the mandated wait in seconds. -/
  | floodWait (value : Nat)
  /-- pyrogram `UserNotParticipant` from `get_chat_member`. -/
  | userNotParticipant
  /-- a generic `Exception(msg)`. -/
  | exception (msg : String)
  /-- a Python `TypeError`. -/
  | typeError (msg : String)
  /-- a Python `IndexError` (bad list/string index, empty findall, ...). -/
  | indexError
  /-- an `AttributeError` (e.g. `.find_all` on `None`). -/
  | attributeError
  /-- a `KeyError` (e.g. missing `"url"` field in a JSON response). -/
  | keyError
deriving DecidableEq

/-- Python `s[n]` / `l[n]` (non-negative index): `none` models `IndexError`. -/
def pyGet {α : Type} : List α → Nat → Option α
  | [], _ => none
  | x :: _, 0 => some x
  | _ :: xs, n + 1 => pyGet xs n

/-- Python `s.split(sep)` for a one-character separator `c`: keeps empty
fields, and `split` of the empty string is `[""]`. -/
def splitChar (c : Char) : List Char → List (List Char)
  | [] => [[]]
  | x :: xs =>
    let rest := splitChar c xs
    if x = c then [] :: rest
    else (x :: rest.headD []) :: rest.tail

/-- Python `needle in haystack` on strings: contiguous-substring test. -/
def isSub (needle : List Char) : List Char → Bool
  | [] => needle.isEmpty
  | x :: xs => needle.isPrefixOf (x :: xs) || isSub needle xs

/-- Python `sep.join(parts)`. -/
def joinWith (sep : List Char) : List (List Char) → List Char
  | [] => []
  | [x] => x
  | x :: y :: xs => x ++ sep ++ joinWith sep (y :: xs)

/-- Python `s.strip()`: drop whitespace from both ends. -/
def pyStrip (s : PyStr) : PyStr :=
  ((s.dropWhile Char.isWhitespace).reverse.dropWhile Char.isWhitespace).reverse

/-- Python `s.lower()` (the text handled here is ASCII). -/
def pyLower (s : PyStr) : PyStr := s.map Char.toLower

/-- Python `s.capitalize()`: first character upper-cased, the rest lower-cased. -/
def pyCapitalize : PyStr → PyStr
  | [] => []
  | c :: rest => c.toUpper :: rest.map Char.toLower

/-- Python `s.replace(old, new)` for one-character `old`/`new`. -/
def replaceChar (a b : Char) (s : PyStr) : PyStr :=
  s.map fun c => if c = a then b else c

/-- Python `s[-1]` as an `Option` (`none` models the `IndexError` on `""`). -/
def pyLastChar (l : List Char) : Option Char := pyGet l.reverse 0

/- ### The selection filter of `psa_bypasser` (bot.py lines 287-302)

`psa_bypasser` fetches the psa page, extracts one anchor per styled container
and resolves each through `try2link_scrape`, all inside a per-item
`try/except: pass`.  The per-item resolution outcome is abstracted as an
`Option PyStr`: `some r` when `try2link_scrape` returned the URL `r`, `none`
when extraction or resolution raised.  Everything after that point — the
selection test, the "latest" title gate, the accumulator and the break — is
translated literally. -/

/-- Outcome of one iteration of the `for link in soup` loop body. -/
inductive ScanStep where
  /-- `items.append(result)` happened; continue with the next link. -/
  | keep (r : PyStr)
  /-- nothing appended (no match, or a swallowed exception); continue. -/
  | skip
  /-- the `break` statement ran: stop the scan, keeping `items` as is. -/
  | stop
deriving DecidableEq

/-- Python `" ".join(result.split("/")[3].split("-")[:-1]).strip()`
(bot.py line 292); `none` models the `IndexError` when the URL has fewer
than four `/`-separated parts. -/
def titleOf (result : PyStr) : Option PyStr :=
  match pyGet (splitChar '/' result) 3 with
  | none => none
  | some seg => some (pyStrip (joinWith (pstr " ") ((splitChar '-' seg).dropLast)))

/-- One iteration of the loop body of `psa_bypasser` (bot.py lines 288-299),
given the accumulated `items` and the item's resolution outcome.  Any raised
exception is caught by the `except: pass`, which is the `.skip` outcome. -/
def psa_step (selection : PyStr) (items : List PyStr) : Option PyStr → ScanStep
  | none => .skip
  | some result =>
    match selection with
    | [] => .skip
    | s0 :: srest =>
      if (s0 == 'l') && isSub srest result then
        match titleOf result with
        | none => .skip
        | some current =>
          if items.length = 0 then .keep result
          else
            match pyGet result (items.length - 1) with
            | none => .skip
            | some ch => if isSub current [ch] then .keep result else .stop
      else if isSub (s0 :: srest) result then .keep result
      else .skip

/-- The whole `for link in soup` loop of `psa_bypasser`, threading `items`. -/
def psa_scan (selection : PyStr) : List (Option PyStr) → List PyStr → List PyStr
  | [], items => items
  | r :: rest, items =>
    match psa_step selection items r with
    | .keep v => psa_scan selection rest (items ++ [v])
    | .skip => psa_scan selection rest items
    | .stop => items

/-- `psa_bypasser(psa_url, selection)` (bot.py lines 267-302) with the page
fetch and per-item resolution stubbed by the outcome list `resolved` (one
entry per extracted container, in page order).  Raises
`Exception("No results found!")` when the accumulated batch is empty. -/
def psa_bypasser (resolved : List (Option PyStr)) (selection : PyStr) :
    Except PyErr (List PyStr) :=
  let items := psa_scan selection resolved []
  if items.isEmpty then .error (.exception "No results found!") else .ok items

example : psa_bypasser [some (pstr "a-720p"), none, some (pstr "b-1080p")]
    (pstr "720p") = .ok [pstr "a-720p"] := rfl
example : psa_bypasser [some (pstr "a-720p")] (pstr "2160p")
    = .error (.exception "No results found!") := rfl

/- ### Reusable facts about the substring test -/

theorem isSub_of_isPrefixOf (s t : List Char) (h : s.isPrefixOf t = true) :
    isSub s t = true := by
  cases t with
  | nil =>
    cases s with
    | nil => rfl
    | cons a as => simp [List.isPrefixOf] at h
  | cons x xs => simp [isSub, h]

theorem isSub_tail (a : Char) (s t : List Char) (h : isSub (a :: s) t = true) :
    isSub s t = true := by
  induction t with
  | nil => simp [isSub] at h
  | cons x xs ih =>
    simp only [isSub, Bool.or_eq_true] at h ⊢
    rcases h with h | h
    · simp only [List.isPrefixOf, Bool.and_eq_true] at h
      exact Or.inr (isSub_of_isPrefixOf s xs h.2)
    · exact Or.inr (ih h)

/- ### Claim C1: the "latest" run, as the claim words it -/

/-- The claim's "title prefix" of a resolved link: the hyphen-joined words of
the URL path segment after the host, last segment dropped (matching the
expression at bot.py line 292); empty when the link is too short. -/
def claimTitle (l : PyStr) : PyStr := (titleOf l).getD []

/-- Modelled from the claim's words (C1), continuation of a started run:
keep consecutive links that contain the remainder and share the title
prefix `t` of the previously accepted item; stop at the first break. -/
def claimLatestRun (rem t : PyStr) : List PyStr → List PyStr
  | [] => []
  | l :: rest =>
    if isSub rem l && (claimTitle l == t) then l :: claimLatestRun rem t rest
    else []

/-- Modelled from the claim's words (C1): the contiguous prefix of the
page-order resolved links that a "latest" selection should return — each
kept link contains the remainder `rem`, and consecutive kept links share a
common title prefix with the previously accepted item. -/
def claimLatestBatch (rem : PyStr) : List PyStr → List PyStr
  | [] => []
  | l :: rest =>
    if isSub rem l then l :: claimLatestRun rem (claimTitle l) rest else []

/-- The input of the C1 counterexample: a resolved link whose title prefix is
`"show x"` and which contains `"720p"`. -/
def cexLatestLink : PyStr := pstr "https://h/show-x-720p/f"

/- ### Claim C1 amended: the "latest" run as the code actually computes it -/

/-- One step of the amended "latest" run (mirrors bot.py lines 291-296): a link
containing the remainder is kept when no item has been kept yet; afterwards it
is kept only when its own title prefix occurs in the one-character string at
index `kept-1` of the *current* link, the scan breaking on a failed check and
skipping links whose title or index computation raises. -/
def amendedStep (rem : PyStr) (kept : List PyStr) (l : PyStr) : ScanStep :=
  if isSub rem l then
    match titleOf l with
    | none => .skip
    | some current =>
      if kept.length = 0 then .keep l
      else
        match pyGet l (kept.length - 1) with
        | none => .skip
        | some ch => if isSub current [ch] then .keep l else .stop
  else .skip

/-- The amended "latest" scan over the successfully resolved links. -/
def amendedLatestScan (rem : PyStr) : List PyStr → List PyStr → List PyStr
  | [], kept => kept
  | l :: rest, kept =>
    match amendedStep rem kept l with
    | .keep v => amendedLatestScan rem rest (kept ++ [v])
    | .skip => amendedLatestScan rem rest kept
    | .stop => kept

theorem psa_step_latest (srest : PyStr) (items : List PyStr) (r : PyStr) :
    psa_step ('l' :: srest) items (some r) = amendedStep srest items r := by
  cases hm : isSub srest r with
  | true => simp [psa_step, amendedStep, hm]
  | false =>
    have hfull : isSub ('l' :: srest) r = false := by
      cases hf : isSub ('l' :: srest) r with
      | false => rfl
      | true => rw [isSub_tail 'l' srest r hf] at hm; exact hm
    simp [psa_step, amendedStep, hm, hfull]

theorem psa_scan_latest (srest : PyStr) (resolved : List (Option PyStr)) :
    ∀ items, psa_scan ('l' :: srest) resolved items
      = amendedLatestScan srest (resolved.filterMap id) items := by
  induction resolved with
  | nil => intro items; rfl
  | cons r rest ih =>
    intro items
    cases r with
    | none => simpa [psa_scan, psa_step, List.filterMap] using ih items
    | some r =>
      simp only [psa_scan, List.filterMap_cons, id, amendedLatestScan,
        psa_step_latest]
      cases amendedStep srest items r <;> simp [ih]

/-- C1 counterexample: for the "latest" selection `l720p` and two identical
resolved links (which trivially contain the remainder `720p` and share the
same title prefix `show x`), the claim's batch keeps both links, but
`psa_bypasser` keeps only the first — the code's run-continuation check
`current in result[len(items)-1]` compares the title against the single
character `h` of the current link, not against the previous item. -/
theorem claim1_counterexample :
    psa_bypasser [some cexLatestLink, some cexLatestLink] (pstr "l720p")
      ≠ Except.ok (claimLatestBatch (pstr "720p") [cexLatestLink, cexLatestLink]) := by
  intro h
  have h1 : psa_bypasser [some cexLatestLink, some cexLatestLink] (pstr "l720p")
      = Except.ok [cexLatestLink] := rfl
  have h2 : claimLatestBatch (pstr "720p") [cexLatestLink, cexLatestLink]
      = [cexLatestLink, cexLatestLink] := rfl
  rw [h1, h2] at h
  exact absurd (congrArg List.length (Except.ok.inj h)) (by decide)

/-- C1 (amended): for every "latest"-prefixed selection code (first character
`l`), `psa_bypasser` walks the successfully resolved links in page order,
skipping links that do not contain the code's remainder (without stopping),
keeps the first remainder-matching link, and afterwards keeps a matching link
only while its own title prefix occurs in the one-character string at index
`(number of kept items - 1)` of the current link, breaking the scan at the
first matching link that fails this check; the resulting batch is returned,
or `Exception("No results found!")` is raised when it is empty. -/
theorem claim1_latest_run_amended (srest : PyStr) (resolved : List (Option PyStr)) :
    psa_bypasser resolved ('l' :: srest)
      = (match amendedLatestScan srest (resolved.filterMap id) [] with
         | [] => Except.error (PyErr.exception "No results found!")
         | v => Except.ok v) := by
  unfold psa_bypasser
  rw [psa_scan_latest srest resolved []]
  cases amendedLatestScan srest (resolved.filterMap id) [] <;> simp [List.isEmpty]

/- ### Claims C5, C7, C8: the plain-selection filter and its error behavior -/

theorem psa_scan_plain (s0 : Char) (srest : PyStr) (h : s0 ≠ 'l')
    (resolved : List (Option PyStr)) :
    ∀ items, psa_scan (s0 :: srest) resolved items
      = items ++ (resolved.filterMap id).filter (fun r => isSub (s0 :: srest) r) := by
  have hb : (s0 == 'l') = false := beq_eq_false_iff_ne.mpr h
  induction resolved with
  | nil => intro items; simp [psa_scan]
  | cons r rest ih =>
    intro items
    cases r with
    | none => simpa [psa_scan, psa_step, List.filterMap] using ih items
    | some r =>
      cases hr : isSub (s0 :: srest) r with
      | true =>
        simp [psa_scan, psa_step, hb, hr, List.filterMap_cons, ih]
      | false =>
        simp [psa_scan, psa_step, hb, hr, List.filterMap_cons, ih]

/-- C5: for every selection code not starting with the "latest" marker (its
first character is not `l`), `psa_bypasser` returns exactly the successfully
resolved links that contain the code verbatim as a substring, in original
page order, and raises `Exception("No results found!")` when no resolved link
matches. -/
theorem claim5_plain_selection (s0 : Char) (srest : PyStr)
    (resolved : List (Option PyStr)) (h : s0 ≠ 'l') :
    psa_bypasser resolved (s0 :: srest)
      = (match (resolved.filterMap id).filter (fun r => isSub (s0 :: srest) r) with
         | [] => Except.error (PyErr.exception "No results found!")
         | v => Except.ok v) := by
  unfold psa_bypasser
  rw [psa_scan_plain s0 srest h resolved []]
  cases (resolved.filterMap id).filter (fun r => isSub (s0 :: srest) r) <;>
    simp [List.isEmpty]

/-- C5 witness: a concrete run of the plain-selection theorem. -/
theorem claim5_witness :
    psa_bypasser [some (pstr "a-720p"), some (pstr "b-1080p")] (pstr "720p")
      = Except.ok [pstr "a-720p"] :=
  (claim5_plain_selection '7' (pstr "20p")
    [some (pstr "a-720p"), some (pstr "b-1080p")] (by decide)).trans rfl

/-- C7: `psa_bypasser` never returns an empty batch — it either returns a
non-empty list or raises — and it raises `Exception("No results found!")`
exactly when the filtered batch (the scan of the resolved links) is empty. -/
theorem claim7_nonempty_or_error (resolved : List (Option PyStr)) (selection : PyStr) :
    (∀ l, psa_bypasser resolved selection = Except.ok l → l ≠ [])
    ∧ (psa_bypasser resolved selection = Except.error (PyErr.exception "No results found!")
        ↔ psa_scan selection resolved [] = []) := by
  unfold psa_bypasser
  cases h : psa_scan selection resolved [] with
  | nil => simp
  | cons a l => simp [List.isEmpty]

/-- C7 witness: a concrete non-empty result obtained through the theorem. -/
theorem claim7_witness : (pstr "a-720p" :: []) ≠ ([] : List PyStr) :=
  (claim7_nonempty_or_error [some (pstr "a-720p")] (pstr "720p")).1
    (pstr "a-720p" :: []) rfl

/-- C8: a per-item exception during resolution (a `none` resolution outcome,
at any position in the page) is swallowed: the item is skipped and the scan
of the remaining links proceeds exactly as if the item were absent. -/
theorem claim8_exception_skipped (selection : PyStr) (pre rest : List (Option PyStr)) :
    ∀ items, psa_scan selection (pre ++ none :: rest) items
      = psa_scan selection (pre ++ rest) items := by
  induction pre with
  | nil => intro items; simp [psa_scan, psa_step]
  | cons r pre ih =>
    intro items
    cases h : psa_step selection items r <;> simp [psa_scan, h, ih]

/- ### The two-stage try2link resolver (bot.py lines 216-264)

The HTTP layer and the two parsers that read its responses are stubbed by an
`HttpStub`: the body returned by the first GET, the parsed `input` name/value
pairs of the `id="go-link"` container on the gate page (`none` when the
container is missing, which makes `.find_all` raise on `None`), and the
`"url"` field of the JSON answering the POST (`none` when missing).  The
requests the code issues are recorded as a trace of `HEvent`s. -/

/-- An outbound HTTP request or an explicit wait, as issued by the resolver. -/
inductive HEvent where
  /-- a GET: url, the optional `d` timing query parameter, headers. -/
  | hget (url : PyStr) (dparam : Option Nat) (headers : List (PyStr × PyStr))
  /-- `asyncio.sleep(secs)` with a numeric argument. -/
  | hsleep (secs : Nat)
  /-- a POST: url, headers, form data. -/
  | hpost (url : PyStr) (headers : List (PyStr × PyStr)) (data : List (PyStr × PyStr))
deriving DecidableEq

/-- A stub of the HTTP layer as seen by `try2link_scrape`/`try2link_bypass`. -/
structure HttpStub where
  /-- body of the response to the first GET in `try2link_scrape`. -/
  scrapeBody : PyStr
  /-- name/value pairs of the `input` fields inside the `id="go-link"`
  container of the gate page; `none` when the container is missing. -/
  gateInputs : Option (List (PyStr × PyStr))
  /-- the `"url"` field of the JSON response to the POST of the given form
  data; `none` when the response has no such field. -/
  postJson : List (PyStr × PyStr) → Option PyStr

/-- The headers of the GET in `try2link_scrape` (bot.py lines 257-260). -/
def scrapeHeaders : List (PyStr × PyStr) :=
  [ (pstr "upgrade-insecure-requests", pstr "1"),
    (pstr "user-agent", pstr "Mozilla/5.0 (Macintosh; Intel Mac OS X 10_15_7) AppleWebKit/537.36 (KHTML, like Gecko) Chrome/105.0.0.0 Safari/537.36") ]

/-- The headers of the POST in `try2link_bypass` (bot.py lines 237-242). -/
def goHeaders (referer : PyStr) : List (PyStr × PyStr) :=
  [ (pstr "Host", pstr "try2link.com"),
    (pstr "X-Requested-With", pstr "XMLHttpRequest"),
    (pstr "Origin", pstr "https://try2link.com"),
    (pstr "Referer", referer) ]

/-- The capture of `(.*?) ` after a matched prefix: the shortest run of
characters (crossing no newline, since `.` does not match one) that is
followed by a space; `none` when no space follows before a newline or the
end of the body. -/
def captureAfter (rest : List Char) : Option (List Char) :=
  let pre := rest.takeWhile fun c => !(c == ' ' || c == '\n')
  match rest.drop pre.length with
  | ' ' :: _ => some pre
  | _ => none

/-- `re.findall('try2link\\.com\\/(.*?) ', body)[0]` (bot.py line 262): the
first position where `try2link.com/` occurs with a space-terminated capture
after it; `none` models the `IndexError` on an empty findall. -/
def re_find_try2link : List Char → Option (List Char)
  | [] => none
  | x :: xs =>
    if (pstr "try2link.com/").isPrefixOf (x :: xs) then
      match captureAfter ((x :: xs).drop 13) with
      | some cap => some cap
      | none => re_find_try2link xs
    else re_find_try2link xs

/-- `try2link_bypass(url)` (bot.py lines 216-244): strip a trailing slash,
GET the gate URL with the `d` parameter `int(time.time()) + 60*4`, read the
form inputs of the `go-link` container, `await asyncio.sleep(7)`, POST the
collected fields to `https://try2link.com/links/go`, and return the `"url"`
field of the JSON response.  Returns the request trace with the result. -/
def try2link_bypass (stub : HttpStub) (now : Nat) (url : PyStr) :
    List HEvent × Except PyErr PyStr :=
  match pyLastChar url with
  | none => ([], .error .indexError)
  | some last =>
    let url1 := if last = '/' then url.dropLast else url
    let d := now + 60 * 4
    let ev1 := HEvent.hget url1 (some d) [(pstr "Referer", pstr "https://newforex.online/")]
    match stub.gateInputs with
    | none => ([ev1], .error .attributeError)
    | some inputs =>
      match stub.postJson inputs with
      | none => ([ev1, HEvent.hsleep 7,
                  HEvent.hpost (pstr "https://try2link.com/links/go") (goHeaders url1) inputs],
                 .error .keyError)
      | some u => ([ev1, HEvent.hsleep 7,
                    HEvent.hpost (pstr "https://try2link.com/links/go") (goHeaders url1) inputs],
                   .ok u)

/-- `try2link_scrape(url)` (bot.py lines 247-264): GET the psa exit-gate URL,
extract the first `try2link.com/<slug> `-shaped reference from the body,
rebuild `https://try2link.com/<slug>` and delegate to `try2link_bypass`. -/
def try2link_scrape (stub : HttpStub) (now : Nat) (url : PyStr) :
    List HEvent × Except PyErr PyStr :=
  let ev0 := HEvent.hget url none scrapeHeaders
  match re_find_try2link stub.scrapeBody with
  | none => ([ev0], .error .indexError)
  | some cap =>
    let res := try2link_bypass stub now (pstr "https://try2link.com/" ++ cap)
    (ev0 :: res.1, res.2)

/-- The gate URL `try2link_bypass` actually requests for a captured slug:
`https://try2link.com/<slug>`, with a trailing slash stripped. -/
def gate_url (cap : PyStr) : PyStr :=
  match pyLastChar (pstr "https://try2link.com/" ++ cap) with
  | none => pstr "https://try2link.com/" ++ cap
  | some last =>
    if last = '/' then (pstr "https://try2link.com/" ++ cap).dropLast
    else pstr "https://try2link.com/" ++ cap

theorem pyLastChar_cons (x : Char) (l : List Char) :
    pyLastChar (x :: l) ≠ none := by
  unfold pyLastChar
  cases h : (x :: l).reverse with
  | nil => exact absurd (congrArg List.length h) (by simp)
  | cons c cs => simp [pyGet]

/-- C6: with the HTTP layer stubbed, the two-stage resolver
(`try2link_scrape` feeding `try2link_bypass`) returns exactly the URL stored
in the `"url"` field of the stub's terminal JSON response, and its request
trace is exactly: the scrape GET, a GET on the gate URL whose `d` query
parameter is the current time plus the fixed offset `60*4`, a fixed 7-second
wait, and a POST of the extracted `go-link` input name/value pairs to
`https://try2link.com/links/go`. -/
theorem claim6_two_stage_roundtrip (stub : HttpStub) (now : Nat) (url : PyStr)
    (cap : PyStr) (ins : List (PyStr × PyStr)) (u : PyStr)
    (h1 : re_find_try2link stub.scrapeBody = some cap)
    (h2 : stub.gateInputs = some ins)
    (h3 : stub.postJson ins = some u) :
    try2link_scrape stub now url
      = ([ HEvent.hget url none scrapeHeaders,
           HEvent.hget (gate_url cap) (some (now + 60 * 4))
             [(pstr "Referer", pstr "https://newforex.online/")],
           HEvent.hsleep 7,
           HEvent.hpost (pstr "https://try2link.com/links/go") (goHeaders (gate_url cap)) ins ],
         Except.ok u) := by
  cases hl : pyLastChar (pstr "https://try2link.com/" ++ cap) with
  | none =>
    exact absurd hl (pyLastChar_cons 'h' (pstr "ttps://try2link.com/" ++ cap))
  | some last =>
    by_cases hc : last = '/' <;>
      simp [try2link_scrape, try2link_bypass, gate_url, h1, hl, h2, h3, hc]

/-- A concrete well-formed stub: one `try2link.com/abc ` reference in the
scraped body, one form field, and a terminal JSON answering the POST of that
field with a final URL. -/
def roundtripStub : HttpStub :=
  { scrapeBody := pstr "go to try2link.com/abc now",
    gateInputs := some [(pstr "token", pstr "t1")],
    postJson := fun d =>
      if d = [(pstr "token", pstr "t1")] then some (pstr "https://final.example/dl")
      else none }

/-- C6 witness: the round trip on the concrete stub returns exactly the URL
of the stub's terminal JSON response. -/
theorem claim6_witness :
    (try2link_scrape roundtripStub 100 (pstr "https://exit.gate/x")).2
      = Except.ok (pstr "https://final.example/dl") :=
  congrArg Prod.snd
    (claim6_two_stage_roundtrip roundtripStub 100 (pstr "https://exit.gate/x")
      (pstr "abc") [(pstr "token", pstr "t1")] (pstr "https://final.example/dl")
      rfl rfl rfl)

/- ### The Telegram handlers (bot.py lines 74-212)

The pyrogram client is stubbed by two oracles: `member : Nat → Bool` models
`app.get_chat_member(CHAT, uid)` (raising `UserNotParticipant` exactly when
`member uid = false`), and `io : Effect → Option PyErr` gives the outcome of
each messaging call (`none` = delivered, `some e` = the call raised `e`).
Page resolution outcomes for `psa_bypasser` are supplied per URL by
`pages : PyStr → List (Option PyStr)`.  A handler yields the list of
performed effects plus a final status: finished normally, or terminated by
an exception that no `except` clause caught (which pyrogram's dispatcher
only logs — the user sees nothing). -/

/-- A messaging/logging side effect performed by a handler. -/
inductive Effect where
  /-- `*.reply(text)` without buttons. -/
  | replyText (text : PyStr)
  /-- `message.reply(text, reply_markup=...)`: rows of (label, callback_data). -/
  | replyMenu (text : PyStr) (buttons : List (List (PyStr × PyStr)))
  /-- `query.message.delete()`. -/
  | deleteMessage
  /-- `query.answer(text)`. -/
  | answerCallback (text : PyStr)
  /-- a completed `asyncio.sleep(n)` with a numeric argument. -/
  | sleepSecs (n : Nat)
  /-- `logger.warning(msg)`. -/
  | logWarning (msg : PyStr)
  /-- `logger.error(msg)`. -/
  | logError (msg : PyStr)
deriving DecidableEq

/-- How a handler invocation ended. -/
inductive HStatus where
  /-- the handler returned normally. -/
  | finished
  /-- an exception left the handler uncaught (pyrogram only logs it). -/
  | unhandled (e : PyErr)
deriving DecidableEq

/-- Effects performed by a handler, in order, and how it ended. -/
structure HandlerResult where
  effects : List Effect
  status : HStatus
deriving DecidableEq

/-- Python `str(e)` for the embedded exceptions (used by f-strings). -/
def pyStrErr : PyErr → PyStr
  | .floodWait v => pstr ("A wait of " ++ toString v ++ " seconds is required")
  | .userNotParticipant => pstr "USER_NOT_PARTICIPANT"
  | .exception m => pstr m
  | .typeError m => pstr m
  | .indexError => pstr "list index out of range"
  | .attributeError => pstr "object has no attribute"
  | .keyError => pstr "url"

/-- A Python value passed to `asyncio.sleep`: a number, or (by mistake) an
exception object. -/
inductive PyVal where
  | num (n : Nat)
  | exc (e : PyErr)

/-- `asyncio.sleep(delay)`: sleeps a numeric delay; comparing a non-numeric
delay with `0` inside `sleep` raises `TypeError`, so passing an exception
object raises instead of sleeping. -/
def asyncio_sleep : PyVal → Except PyErr Nat
  | .num n => .ok n
  | .exc _ => .error (.typeError "unsupported operand type for delay comparison")

/-- The message of the authorization rejection (bot.py line 84). -/
def authMsg : String := "You are not allowed to use this bot."

/-- `autorization(user_id)` (bot.py lines 74-84): `get_chat_member` raises
`UserNotParticipant` exactly when the user is not in the chat roster, and the
handler converts that into `Exception(authMsg)`. -/
def autorization (member : Nat → Bool) (user_id : Nat) : Except PyErr Unit :=
  if member user_id then .ok () else .error (.exception authMsg)

/-- The host pattern `https://psa\.(pm|re)/` of bot.py lines 96 and 103,
applied by `re.search` to an already lower-cased string. -/
def containsHost (s : PyStr) : Bool :=
  isSub (pstr "https://psa.pm/") s || isSub (pstr "https://psa.re/") s

/-- The movie menu of bot.py lines 109-132: rows of (label, callback_data). -/
def movieButtons (link : PyStr) : List (List (PyStr × PyStr)) :=
  [ [ (pstr "🔵 720P", pstr "720p " ++ link),
      (pstr "🟠 1080P", pstr "1080p " ++ link),
      (pstr "🔴 2160P", pstr "2160p " ++ link) ],
    [ (pstr "❌ Cancel", pstr "cancel") ] ]

/-- The tv-show menu of bot.py lines 134-168. -/
def tvButtons (link : PyStr) : List (List (PyStr × PyStr)) :=
  [ [ (pstr "🔵 720P", pstr "720p " ++ link),
      (pstr "🟠 1080P", pstr "1080p " ++ link),
      (pstr "🔴 2160P", pstr "2160p " ++ link) ],
    [ (pstr "🔵 Latest", pstr "l720p " ++ link),
      (pstr "🟠 Latest", pstr "l1080p " ++ link),
      (pstr "🔴 Latest", pstr "l2160p " ++ link) ],
    [ (pstr "❌ Cancel", pstr "cancel") ] ]

/-- The menu selected by `match link.split("/")[3]` (bot.py lines 107-168):
an `IndexError` when the link has fewer than four `/`-separated parts,
otherwise the movie menu, the tv-show menu, or no menu at all. -/
def menuFor (link : PyStr) : Except PyErr (Option (PyStr × List (List (PyStr × PyStr)))) :=
  match pyGet (splitChar '/' link) 3 with
  | none => .error .indexError
  | some seg =>
    if seg = pstr "movie" then
      .ok (some (pstr "**Choose a resolution for:**\n" ++ link, movieButtons link))
    else if seg = pstr "tv-show" then
      .ok (some (pstr "**Select an option or resolution for:**\n" ++ link, tvButtons link))
    else .ok none

/-- The `for link in links` loop of `handle_message` (bot.py lines 106-168):
sends one menu per movie/tv-show link, stops with the raised exception as
soon as a lookup or a reply raises. -/
def msgLoop (io : Effect → Option PyErr) :
    List PyStr → List Effect → List Effect × Except PyErr Unit
  | [], trace => (trace, .ok ())
  | link :: rest, trace =>
    match menuFor link with
    | .error e => (trace, .error e)
    | .ok none => msgLoop io rest trace
    | .ok (some (text, buttons)) =>
      let eff := Effect.replyMenu text buttons
      match io eff with
      | some e => (trace, .error e)
      | none => msgLoop io rest (trace ++ [eff])

/-- `handle_message(app, message)` (bot.py lines 87-172).  `autorization` runs
before the `try` block, so its rejection propagates unhandled.  The link list
comprehension replaces only newlines by spaces (`"," and "\n"` evaluates to
`"\n"`), splits on single spaces, and its condition tests the whole lowered
message — not the item — so every token is kept.  `except FloodWait` passes
the exception object itself to `asyncio.sleep`; `except Exception` replies
with the error text. -/
def handle_message (member : Nat → Bool) (io : Effect → Option PyErr)
    (fromUser : Nat) (text : PyStr) : HandlerResult :=
  match autorization member fromUser with
  | .error e => ⟨[], .unhandled e⟩
  | .ok _ =>
    let lowered := pyLower text
    if containsHost lowered then
      let toks := splitChar ' ' (replaceChar '\n' ' ' lowered)
      let links := if containsHost lowered then toks else []
      match msgLoop io links [] with
      | (trace, .ok _) => ⟨trace, .finished⟩
      | (trace, .error (.floodWait v)) =>
        match asyncio_sleep (.exc (.floodWait v)) with
        | .ok n => ⟨trace ++ [.sleepSecs n], .finished⟩
        | .error e2 => ⟨trace, .unhandled e2⟩
      | (trace, .error e) =>
        let eff := Effect.replyText (pstr "**⚠️ Error:** " ++ pyStrErr e)
        match io eff with
        | none => ⟨trace ++ [eff], .finished⟩
        | some e2 => ⟨trace, .unhandled e2⟩
    else ⟨[], .finished⟩

/-- A callback query as `handle_callback` sees it. -/
structure CallbackQuery where
  /-- `query.from_user.id`: the user who pressed the button. -/
  presserId : Nat
  /-- `query.message.reply_to_message.from_user.id`: the author of the
  original message the menu replied to. -/
  replyToAuthorId : Nat
  /-- `query.data`. -/
  data : PyStr
deriving DecidableEq

/-- `" ".join(link.split("/")[3].split("-")).capitalize().strip()`
(bot.py line 204); `none` models the `IndexError` on short links. -/
def nameOf (link : PyStr) : Option PyStr :=
  match pyGet (splitChar '/' link) 3 with
  | none => none
  | some seg => some (pyStrip (pyCapitalize (joinWith (pstr " ") (splitChar '-' seg))))

/-- The reply-text loop of `handle_callback` (bot.py lines 202-205):
`f"{counter}. [{name}]({link})\n"` per link, starting at 1. -/
def buildLinksMessage : List PyStr → Nat → PyStr → Option PyStr
  | [], _, acc => some acc
  | l :: rest, counter, acc =>
    match nameOf l with
    | none => none
    | some nm =>
      buildLinksMessage rest (counter + 1)
        (acc ++ pstr (toString counter ++ ". [") ++ nm ++ pstr "](" ++ l ++ pstr ")\n")

/-- The `try` body of `handle_callback` (bot.py lines 195-206): delete the
menu message, answer a cancel, otherwise parse `query.data` into selection
and URL, run `psa_bypasser` and reply with the numbered link list. -/
def cbBody (io : Effect → Option PyErr) (pages : PyStr → List (Option PyStr))
    (q : CallbackQuery) : List Effect × Except PyErr Unit :=
  match io Effect.deleteMessage with
  | some e => ([], .error e)
  | none =>
    let t0 := [Effect.deleteMessage]
    if q.data = pstr "cancel" then
      let eff := Effect.answerCallback (pstr "❌ Cancelled")
      match io eff with
      | some e => (t0, .error e)
      | none => (t0 ++ [eff], .ok ())
    else
      match pyGet (splitChar ' ' q.data) 1 with
      | none => (t0, .error .indexError)
      | some url =>
        let selection := (splitChar ' ' q.data).headD []
        match psa_bypasser (pages url) selection with
        | .error e => (t0, .error e)
        | .ok links =>
          match buildLinksMessage links 1 (pstr "**You can download torrent here:**\n") with
          | none => (t0, .error .indexError)
          | some msg =>
            let eff := Effect.replyText msg
            match io eff with
            | some e => (t0, .error e)
            | none => (t0 ++ [eff], .ok ())

/-- `handle_callback(app, query)` (bot.py lines 175-212).  `autorization` is
called on the author of the replied-to message — not on the button presser —
and before the `try` block, so its rejection propagates unhandled.
`except FloodWait` logs a warning and passes the exception object itself to
`asyncio.sleep`; `except Exception` logs and replies with the error text. -/
def handle_callback (member : Nat → Bool) (io : Effect → Option PyErr)
    (pages : PyStr → List (Option PyStr)) (q : CallbackQuery) : HandlerResult :=
  match autorization member q.replyToAuthorId with
  | .error e => ⟨[], .unhandled e⟩
  | .ok _ =>
    match cbBody io pages q with
    | (trace, .ok _) => ⟨trace, .finished⟩
    | (trace, .error (.floodWait v)) =>
      let trace2 := trace ++ [Effect.logWarning (pstr "Flood wait: " ++ pyStrErr (.floodWait v))]
      match asyncio_sleep (.exc (.floodWait v)) with
      | .ok n => ⟨trace2 ++ [.sleepSecs n], .finished⟩
      | .error e2 => ⟨trace2, .unhandled e2⟩
    | (trace, .error e) =>
      let trace2 := trace ++ [Effect.logError (pyStrErr e)]
      let eff := Effect.replyText (pstr "**⚠️ Error:** " ++ pyStrErr e)
      match io eff with
      | none => ⟨trace2 ++ [eff], .finished⟩
      | some e2 => ⟨trace2, .unhandled e2⟩

example :
    handle_callback (fun _ => true) (fun _ => none)
      (fun _ => [some (pstr "https://dl/show-x-720p/f")])
      ⟨1, 2, pstr "720p https://psa.pm/movie/x"⟩
    = ⟨[Effect.deleteMessage,
        Effect.replyText (pstr "**You can download torrent here:**\n1. [Show x 720p](https://dl/show-x-720p/f)\n")],
       .finished⟩ := rfl

/- ### Claim C2: the FloodWait path -/

/-- An effect oracle where deleting the menu message raises `FloodWait(30)`. -/
def ioFloodOnDel : Effect → Option PyErr := fun e =>
  match e with
  | .deleteMessage => some (.floodWait 30)
  | _ => none

/-- An effect oracle where sending a selection menu raises `FloodWait(30)`. -/
def ioFloodOnMenu : Effect → Option PyErr := fun e =>
  match e with
  | .replyMenu _ _ => some (.floodWait 30)
  | _ => none

/-- C2 (code bug): when a `FloodWait(30)` is raised mid-pipeline, neither
handler sleeps for the carried 30-second duration — both pass the exception
object itself to `asyncio.sleep`, which raises `TypeError`, terminating the
handler unhandled with no sleep performed (and no user-visible reply: the
only effect in the callback path is a log line). -/
theorem claim2_floodwait_no_sleep :
    handle_callback (fun _ => true) ioFloodOnDel (fun _ => [])
        ⟨1, 2, pstr "720p https://psa.pm/movie/x"⟩
      = ⟨[Effect.logWarning (pstr "Flood wait: " ++ pyStrErr (.floodWait 30))],
         .unhandled (.typeError "unsupported operand type for delay comparison")⟩
    ∧ handle_message (fun _ => true) ioFloodOnMenu 1 (pstr "https://psa.pm/movie/x")
      = ⟨[], .unhandled (.typeError "unsupported operand type for delay comparison")⟩ :=
  ⟨rfl, rfl⟩

/- ### Claim C3: the authorization gate -/

/-- `true` when the handler produced any effect a user can see in the chat. -/
def isUserVisible : Effect → Bool
  | .replyText _ => true
  | .replyMenu _ _ => true
  | .answerCallback _ => true
  | _ => false

/-- C3 counterexample: for a non-member sender of a psa link and a non-member
author behind a callback, both handlers raise the rejection before any other
processing, but the rejection leaves the handler uncaught and produces no
user-visible effect at all — no error message surfaces to the user. -/
theorem claim3_counterexample :
    ((handle_message (fun _ => false) (fun _ => none) 7
        (pstr "https://psa.pm/movie/x")).effects.filter isUserVisible = []
      ∧ (handle_message (fun _ => false) (fun _ => none) 7
          (pstr "https://psa.pm/movie/x")).status
          = .unhandled (.exception authMsg))
    ∧ ((handle_callback (fun _ => false) (fun _ => none) (fun _ => [])
          ⟨1, 2, pstr "cancel"⟩).effects.filter isUserVisible = []
      ∧ (handle_callback (fun _ => false) (fun _ => none) (fun _ => [])
          ⟨1, 2, pstr "cancel"⟩).status = .unhandled (.exception authMsg)) :=
  ⟨⟨rfl, rfl⟩, ⟨rfl, rfl⟩⟩

/-- C3 (amended): chat-roster membership is checked before any other
processing in both handlers, and when the check fails the raised rejection
(`Exception("You are not allowed to use this bot.")`) terminates the handler
with no effect performed — since the call sits before the `try` block, the
rejection propagates to the framework unhandled instead of surfacing as a
user-visible error message. -/
theorem claim3_auth_failure_unhandled (member : Nat → Bool)
    (io : Effect → Option PyErr) (uid : Nat) (h : member uid = false) :
    (∀ text, handle_message member io uid text
        = ⟨[], .unhandled (.exception authMsg)⟩)
    ∧ (∀ pages q, q.replyToAuthorId = uid →
        handle_callback member io pages q
          = ⟨[], .unhandled (.exception authMsg)⟩) := by
  constructor
  · intro text
    simp [handle_message, autorization, h]
  · intro pages q hq
    simp [handle_callback, autorization, hq, h]

/-- C3 witness: a concrete unauthorized message invocation. -/
theorem claim3_witness :
    handle_message (fun _ => false) (fun _ => none) 5 (pstr "https://psa.pm/movie/x")
      = ⟨[], .unhandled (.exception authMsg)⟩ :=
  (claim3_auth_failure_unhandled (fun _ => false) (fun _ => none) 5 rfl).1
    (pstr "https://psa.pm/movie/x")

/- ### Claim C10: callback authorization ignores the button presser -/

/-- C10: the processing of a callback query depends only on its data and on
the author of the replied-to message — two callbacks with the same data on
the same message, pressed by different users, are processed identically
(`handle_callback` never reads `query.from_user`). -/
theorem claim10_presser_independent (member : Nat → Bool)
    (io : Effect → Option PyErr) (pages : PyStr → List (Option PyStr))
    (q1 q2 : CallbackQuery) (hdata : q1.data = q2.data)
    (hauthor : q1.replyToAuthorId = q2.replyToAuthorId) :
    handle_callback member io pages q1 = handle_callback member io pages q2 := by
  cases q1 with
  | mk p1 a1 d1 =>
    cases q2 with
    | mk p2 a2 d2 =>
      simp only at hdata hauthor
      subst hdata
      subst hauthor
      rfl

/-- C10 witness: two presses of the same button by different users. -/
theorem claim10_witness :
    handle_callback (fun _ => true) (fun _ => none) (fun _ => []) ⟨1, 7, pstr "cancel"⟩
      = handle_callback (fun _ => true) (fun _ => none) (fun _ => []) ⟨2, 7, pstr "cancel"⟩ :=
  claim10_presser_independent (fun _ => true) (fun _ => none) (fun _ => [])
    ⟨1, 7, pstr "cancel"⟩ ⟨2, 7, pstr "cancel"⟩ rfl rfl

/- ### Claim C4: which links a message yields -/

/-- Split a string at every character satisfying `p` (claim-side notion of
"whitespace and comma boundaries"). -/
def splitCharsBy (p : Char → Bool) : List Char → List (List Char)
  | [] => [[]]
  | x :: xs =>
    let rest := splitCharsBy p xs
    if p x then [] :: rest
    else (x :: rest.headD []) :: rest.tail

/-- Modelled from the claim's words (C4): the message's tokens split on
whitespace and comma boundaries. -/
def claimTokens (text : PyStr) : List PyStr :=
  splitCharsBy (fun c => c == ' ' || c == ',' || c == '\n' || c == '\t') text

/-- `true` exactly for a sent selection menu. -/
def isMenuEffect : Effect → Bool
  | .replyMenu _ _ => true
  | _ => false

/-- C4 counterexample: the message `"x https://psa.pm/movie/abc"` has exactly
one whitespace/comma-separated token matching the host pattern, so the claim
predicts one selection menu; the code keeps the non-matching token `"x"` too
(the comprehension's condition tests the whole message), hits `IndexError` on
it and aborts before the psa link, producing zero menus. -/
theorem claim4_counterexample :
    (handle_message (fun _ => true) (fun _ => none) 1
        (pstr "x https://psa.pm/movie/abc")).effects.countP isMenuEffect = 0
    ∧ ((claimTokens (pstr "x https://psa.pm/movie/abc")).filter containsHost).length
        = 1 :=
  ⟨rfl, rfl⟩

/-- The token list the code actually builds (bot.py lines 100-104): the
lower-cased message with newlines — only — replaced by spaces, split on
single spaces, every token kept. -/
def amendedTokens (text : PyStr) : List PyStr :=
  splitChar ' ' (replaceChar '\n' ' ' (pyLower text))

/-- The menu effects the amended claim predicts for a token list: walk the
tokens in order; a token whose fourth `/`-part is `movie`/`tv-show` yields
the corresponding menu, another fourth part yields nothing, and a token with
fewer than four `/`-parts raises `IndexError`, stopping the walk. -/
def amendedMenus : List PyStr → List Effect × Except PyErr Unit
  | [] => ([], .ok ())
  | l :: rest =>
    match menuFor l with
    | .error e => ([], .error e)
    | .ok none => amendedMenus rest
    | .ok (some (text, buttons)) =>
      let p := amendedMenus rest
      (Effect.replyMenu text buttons :: p.1, p.2)

theorem msgLoop_amended (io : Effect → Option PyErr) (hio : ∀ e, io e = none) :
    ∀ (links : List PyStr) (trace : List Effect),
      msgLoop io links trace
        = (trace ++ (amendedMenus links).1, (amendedMenus links).2) := by
  intro links
  induction links with
  | nil => intro trace; simp [msgLoop, amendedMenus]
  | cons l rest ih =>
    intro trace
    cases hm : menuFor l with
    | error e => simp [msgLoop, amendedMenus, hm]
    | ok o =>
      cases o with
      | none => simp [msgLoop, amendedMenus, hm, ih]
      | some tb => simp [msgLoop, amendedMenus, hm, hio, ih]

theorem amendedMenus_status (links : List PyStr) :
    (amendedMenus links).2 = .ok ()
    ∨ (amendedMenus links).2 = .error PyErr.indexError := by
  induction links with
  | nil => left; rfl
  | cons l rest ih =>
    cases hm : menuFor l with
    | error e =>
      right
      have he : e = PyErr.indexError := by
        cases hp : pyGet (splitChar '/' l) 3 with
        | none =>
          simp only [menuFor, hp] at hm
          exact (Except.error.inj hm).symm
        | some seg =>
          simp only [menuFor, hp] at hm
          split at hm
          · simp at hm
          · split at hm <;> simp at hm
      simp [amendedMenus, hm, he]
    | ok o =>
      cases o with
      | none => simpa [amendedMenus, hm] using ih
      | some tb => simpa [amendedMenus, hm] using ih

/-- C4 (amended): when the lower-cased message contains the host pattern,
the links processed are *all* space-separated tokens of the message with
newlines (only — commas are not boundaries) replaced by spaces; non-matching
tokens are not filtered out.  Tokens are processed in order: a token whose
fourth `/`-part is `movie`/`tv-show` yields its menu, another fourth part
yields nothing, and a token with fewer than four `/`-parts raises
`IndexError`, which stops the loop and produces an error reply instead of
further menus.  A message without the host pattern produces nothing. -/
theorem claim4_message_pipeline_amended (member : Nat → Bool)
    (io : Effect → Option PyErr) (uid : Nat) (text : PyStr)
    (hmem : member uid = true) (hio : ∀ e, io e = none) :
    handle_message member io uid text
      = if containsHost (pyLower text) then
          match amendedMenus (amendedTokens text) with
          | (es, .ok _) => ⟨es, .finished⟩
          | (es, .error e) =>
            ⟨es ++ [Effect.replyText (pstr "**⚠️ Error:** " ++ pyStrErr e)], .finished⟩
        else ⟨[], .finished⟩ := by
  have hauth : autorization member uid = .ok () := by simp [autorization, hmem]
  by_cases hch : containsHost (pyLower text)
  · have hloop := msgLoop_amended io hio
      (splitChar ' ' (replaceChar '\n' ' ' (pyLower text))) []
    simp only [handle_message, hauth, hch, if_true, amendedTokens, hloop,
      List.nil_append]
    rcases amendedMenus_status (splitChar ' ' (replaceChar '\n' ' ' (pyLower text)))
      with hs | hs
    · rw [hs]
      cases hp : amendedMenus (splitChar ' ' (replaceChar '\n' ' ' (pyLower text)))
        with
      | mk es r =>
        rw [hp] at hs
        simp only at hs
        subst hs
        rfl
    · rw [hs]
      cases hp : amendedMenus (splitChar ' ' (replaceChar '\n' ' ' (pyLower text)))
        with
      | mk es r =>
        rw [hp] at hs
        simp only at hs
        subst hs
        simp [hio]
  · simp [handle_message, hauth, hch]

/-- C4 witness: one well-formed movie link yields exactly its menu. -/
theorem claim4_witness :
    handle_message (fun _ => true) (fun _ => none) 3 (pstr "https://psa.pm/movie/x")
      = ⟨[Effect.replyMenu (pstr "**Choose a resolution for:**\n" ++ pstr "https://psa.pm/movie/x")
            (movieButtons (pstr "https://psa.pm/movie/x"))], .finished⟩ :=
  (claim4_message_pipeline_amended (fun _ => true) (fun _ => none) 3
    (pstr "https://psa.pm/movie/x") rfl (fun _ => rfl)).trans rfl

/- ### Claim C9: the menu depends only on the path segment after the host -/

theorem splitChar_ne_nil (c : Char) (l : List Char) : splitChar c l ≠ [] := by
  cases l with
  | nil => simp [splitChar]
  | cons x xs =>
    by_cases hx : x = c <;> simp [splitChar, hx]

theorem pyGet_zero_headD {α : Type} (l : List α) (d : α) (h : l ≠ []) :
    pyGet l 0 = some (l.headD d) := by
  cases l with
  | nil => exact absurd rfl h
  | cons a as => rfl

theorem splitChar_headD (c : Char) (l : List Char) :
    (splitChar c l).headD [] = l.takeWhile (fun x => !(x == c)) := by
  induction l with
  | nil => rfl
  | cons x xs ih =>
    by_cases hx : x = c
    · simp [splitChar, List.takeWhile_cons, hx]
    · simp [splitChar, List.takeWhile_cons, hx]
      simpa using ih

theorem isPrefixOf_exists {p l : List Char} (h : p.isPrefixOf l = true) :
    ∃ t, l = p ++ t := by
  induction p generalizing l with
  | nil => exact ⟨l, rfl⟩
  | cons a as ih =>
    cases l with
    | nil => simp [List.isPrefixOf] at h
    | cons x xs =>
      simp only [List.isPrefixOf, Bool.and_eq_true] at h
      obtain rfl : a = x := eq_of_beq h.1
      obtain ⟨t, ht⟩ := ih h.2
      exact ⟨t, by rw [ht]; rfl⟩

/-- A link is "recognized" when it begins with the host pattern
`https://psa.pm/` or `https://psa.re/` (both 15 characters long). -/
def startsWithHost (link : PyStr) : Bool :=
  (pstr "https://psa.pm/").isPrefixOf link || (pstr "https://psa.re/").isPrefixOf link

/-- The URL path segment immediately following the host: everything after
the 15-character host prefix, up to the next `/`. -/
def segAfterHost (link : PyStr) : PyStr :=
  (link.drop 15).takeWhile (fun x => !(x == '/'))

theorem segOf_psa_pm (rest : List Char) :
    pyGet (splitChar '/' (pstr "https://psa.pm/" ++ rest)) 3
      = some ((splitChar '/' rest).headD []) := by
  show pyGet (splitChar '/' rest) 0 = some ((splitChar '/' rest).headD [])
  exact pyGet_zero_headD _ _ (splitChar_ne_nil '/' rest)

theorem segOf_psa_re (rest : List Char) :
    pyGet (splitChar '/' (pstr "https://psa.re/" ++ rest)) 3
      = some ((splitChar '/' rest).headD []) := by
  show pyGet (splitChar '/' rest) 0 = some ((splitChar '/' rest).headD [])
  exact pyGet_zero_headD _ _ (splitChar_ne_nil '/' rest)

theorem segOf_host (link : PyStr) (h : startsWithHost link = true) :
    pyGet (splitChar '/' link) 3 = some (segAfterHost link) := by
  simp only [startsWithHost, Bool.or_eq_true] at h
  rcases h with h | h
  · obtain ⟨t, rfl⟩ := isPrefixOf_exists h
    rw [segOf_psa_pm, splitChar_headD]
    have hd : (pstr "https://psa.pm/" ++ t).drop 15 = t := rfl
    simp [segAfterHost, hd]
  · obtain ⟨t, rfl⟩ := isPrefixOf_exists h
    rw [segOf_psa_re, splitChar_headD]
    have hd : (pstr "https://psa.re/" ++ t).drop 15 = t := rfl
    simp [segAfterHost, hd]

/-- The selection code of each button of a menu (the callback data up to the
first space): the "option set" of the menu, independent of the link echoed
in the data. -/
def optionCodes (buttons : List (List (PyStr × PyStr))) : List PyStr :=
  buttons.flatten.map (fun b => (splitChar ' ' b.2).headD [])

theorem optionCodes_movie (link : PyStr) :
    optionCodes (movieButtons link)
      = [pstr "720p", pstr "1080p", pstr "2160p", pstr "cancel"] := rfl

theorem optionCodes_tv (link : PyStr) :
    optionCodes (tvButtons link)
      = [pstr "720p", pstr "1080p", pstr "2160p",
         pstr "l720p", pstr "l1080p", pstr "l2160p", pstr "cancel"] := rfl

/-- The option set (or absence of a menu) of a recognized link, per the
segment after the host: `movie` gives the three resolutions plus cancel,
`tv-show` adds the three latest options, anything else gives no menu. -/
def segMenuCodes (seg : PyStr) : Except PyErr (Option (List PyStr)) :=
  if seg = pstr "movie" then
    .ok (some [pstr "720p", pstr "1080p", pstr "2160p", pstr "cancel"])
  else if seg = pstr "tv-show" then
    .ok (some [pstr "720p", pstr "1080p", pstr "2160p",
               pstr "l720p", pstr "l1080p", pstr "l2160p", pstr "cancel"])
  else .ok none

/-- The option set of the menu `handle_message` presents for a link (through
`menuFor`, the translation of bot.py lines 107-168): `none` for no menu. -/
def optionSetOf (link : PyStr) : Except PyErr (Option (List PyStr)) :=
  match menuFor link with
  | .error e => .error e
  | .ok none => .ok none
  | .ok (some mb) => .ok (some (optionCodes mb.2))

theorem optionSetOf_host (link : PyStr) (h : startsWithHost link = true) :
    optionSetOf link = segMenuCodes (segAfterHost link) := by
  have hs := segOf_host link h
  by_cases h1 : segAfterHost link = pstr "movie"
  · simp [optionSetOf, menuFor, hs, segMenuCodes, h1, optionCodes_movie]
  · by_cases h2 : segAfterHost link = pstr "tv-show"
    · have hne : ¬ (pstr "tv-show" = pstr "movie") := by decide
      simp only [optionSetOf, menuFor, hs, segMenuCodes, h2]
      simp [hne, optionCodes_tv]
    · simp [optionSetOf, menuFor, hs, segMenuCodes, h1, h2]

/-- C9: for recognized links (those starting with the host pattern), the
option set of the presented selection menu — or the absence of any menu — is
a function of only the URL path segment immediately following the host: two
links with equal segments yield the same option set, segment `movie` yields
the three-resolution menu, and segment `tv-show` yields the
resolution-plus-latest menu. -/
theorem claim9_menu_depends_on_segment (l1 l2 : PyStr)
    (h1 : startsWithHost l1 = true) (h2 : startsWithHost l2 = true) :
    (segAfterHost l1 = segAfterHost l2 → optionSetOf l1 = optionSetOf l2)
    ∧ (segAfterHost l1 = pstr "movie" →
        optionSetOf l1
          = .ok (some [pstr "720p", pstr "1080p", pstr "2160p", pstr "cancel"]))
    ∧ (segAfterHost l1 = pstr "tv-show" →
        optionSetOf l1
          = .ok (some [pstr "720p", pstr "1080p", pstr "2160p",
                       pstr "l720p", pstr "l1080p", pstr "l2160p", pstr "cancel"])) := by
  refine ⟨fun he => ?_, fun hm => ?_, fun ht => ?_⟩
  · rw [optionSetOf_host l1 h1, optionSetOf_host l2 h2, he]
  · rw [optionSetOf_host l1 h1, hm]; rfl
  · rw [optionSetOf_host l1 h1, ht]; rfl

/-- C9 witness: two different movie links on the two hosts share one option
set. -/
theorem claim9_witness :
    optionSetOf (pstr "https://psa.pm/movie/a")
      = optionSetOf (pstr "https://psa.re/movie/b") :=
  (claim9_menu_depends_on_segment (pstr "https://psa.pm/movie/a")
    (pstr "https://psa.re/movie/b") rfl rfl).1 rfl
